import Mathlib

/-!
Verification of the RAG backend vector-store lifecycle and rate-limited
API orchestration layer, as a shallow embedding of `app/vectorstore.py`,
`app/embedding.py`, `app/llm_setup.py`, `app/routes.py` and `app/models.py`.

Python objects become explicit state records, machine floats become `Rat`,
fallible calls return `Except`, and disk I/O becomes an explicit `Disk`
record threaded through the operations.
-/

namespace RAGBackend

/-! ## Data model (langchain `Document`, embedding vectors) -/

/-- Metadata carried by a langchain `Document`; fields are optional because
the code accesses them via `metadata.get(key, default)`. -/
structure DocMeta where
  source : Option String
  title : Option String
  fileType : Option String
  deriving Repr, DecidableEq

/-- A langchain `Document`: page content plus metadata. -/
structure Document where
  pageContent : String
  metadata : DocMeta
  deriving Repr, DecidableEq

/-- An embedding vector (list of rationals standing for the float list). -/
abbrev Vec := List Rat

/-- The embedding backend: both entry points may fail (network call). -/
structure Embedder where
  embedDocuments : List String → Except String (List Vec)
  embedQuery : String → Except String Vec

/-! ## The langchain FAISS vectorstore

`FAISS` holds the similarity index (a position-indexed list of vectors),
the docstore (document id to document) and the position-to-id mapping,
exactly the three components `save_index` serializes. -/

structure FAISS where
  index : List Vec
  docstore : List (String × Document)
  indexToDocstoreId : List String
  deriving Repr, DecidableEq

/-- Fresh docstore ids for `n` newly added documents (the code uses uuids;
any injective supply of unused ids is faithful). -/
def freshIds (f : FAISS) (n : Nat) : List String :=
  (List.range n).map (fun i => toString (f.indexToDocstoreId.length + i))

/-- `FAISS.add_documents`: embed all page contents first (a failure there
leaves the store untouched), then append vectors, docstore entries and
position-to-id bindings. -/
def FAISS.addDocuments (f : FAISS) (emb : Embedder) (docs : List Document) :
    Except String FAISS :=
  match emb.embedDocuments (docs.map (fun dc => dc.pageContent)) with
  | .error e => .error e
  | .ok vecs =>
    let ids := freshIds f docs.length
    .ok { index := f.index ++ vecs
          docstore := f.docstore ++ ids.zip docs
          indexToDocstoreId := f.indexToDocstoreId ++ ids }

/-- Squared L2 distance between two vectors (the FAISS `IndexFlatL2` metric). -/
def l2dist (v w : Vec) : Rat :=
  ((v.zip w).map (fun p => (p.1 - p.2) * (p.1 - p.2))).sum

/-- Look a search hit up in the docstore through the position-to-id mapping. -/
def lookupDoc (f : FAISS) (pos : Nat) : Option Document :=
  match f.indexToDocstoreId.get? pos with
  | none => none
  | some id => f.docstore.lookup id

/-- Insertion into a distance-ascending list of (position, distance) pairs. -/
def insertByDist (p : Nat × Rat) : List (Nat × Rat) → List (Nat × Rat)
  | [] => [p]
  | q :: rest => if p.2 < q.2 then p :: q :: rest else q :: insertByDist p rest

/-- Sort (position, distance) pairs by ascending distance. -/
def sortByDist : List (Nat × Rat) → List (Nat × Rat)
  | [] => []
  | p :: rest => insertByDist p (sortByDist rest)

/-- `FAISS.similarity_search_with_score`: embed the query, score every
indexed vector, return the `k` nearest (ascending distance) with their
documents; positions with no docstore entry are skipped (the `-1` filter). -/
def FAISS.searchWithScore (f : FAISS) (emb : Embedder) (q : String) (k : Nat) :
    Except String (List (Document × Rat)) :=
  match emb.embedQuery q with
  | .error e => .error e
  | .ok qv =>
    let scored := f.index.enum.map (fun p => (p.1, l2dist qv p.2))
    .ok (((sortByDist scored).take k).filterMap
      (fun p => (lookupDoc f p.1).map (fun dc => (dc, p.2))))

/-! ## On-disk state -/

/-- A file on disk: absent, present but unreadable/undeserializable, or
present with valid content. -/
inductive FileState (α : Type) where
  | absent
  | corrupt
  | valid (content : α)
  deriving Repr, DecidableEq

/-- `os.path.exists`: true for both valid and corrupt files. -/
def FileState.existsOnDisk {α : Type} : FileState α → Bool
  | .absent => false
  | .corrupt => true
  | .valid _ => true

/-- Reading/deserializing a file succeeds only on valid content. -/
def readFile {α : Type} : FileState α → Option α
  | .valid a => some a
  | _ => none

/-- Content of the `.pkl` companion artifact: the document list, the
docstore and the position-to-id mapping, as pickled by `save_index`. -/
structure PklData where
  documents : List Document
  docstore : List (String × Document)
  indexToDocstoreId : List String
  deriving Repr, DecidableEq

/-- The two companion artifacts at the configured index path. -/
structure Disk where
  faissFile : FileState (List Vec)
  pklFile : FileState PklData
  deriving Repr, DecidableEq

/-! ## FAISSVectorStore -/

/-- In-memory state of `FAISSVectorStore`: the optional langchain store and
the tracked document list. -/
structure VSState where
  vectorstore : Option FAISS
  documents : List Document
  deriving Repr, DecidableEq

/-- A freshly constructed `FAISSVectorStore()`. -/
def freshStore : VSState := ⟨none, []⟩

/-- `get_document_count`: length of the in-memory document list only. -/
def getDocumentCount (s : VSState) : Nat := s.documents.length

/-- `index_exists`: both artifacts exist on disk. -/
def indexExistsOnDisk (d : Disk) : Bool :=
  d.faissFile.existsOnDisk && d.pklFile.existsOnDisk

/-- The dummy document used by `_create_new_vectorstore`. -/
def initDocument : Document :=
  ⟨"Initialization document", ⟨some "init", some "Init", none⟩⟩

/-- `_create_new_vectorstore`: builds a FAISS store from the dummy document
(this embeds it, so it can fail) and removes the dummy again, leaving an
empty index. -/
def createNewVectorstore (emb : Embedder) : Except String FAISS :=
  match emb.embedDocuments [initDocument.pageContent] with
  | .error e => .error e
  | .ok _ => .ok ⟨[], [], []⟩

/-- First half of `save_index`: write the FAISS index artifact. A crash can
occur between this write and the pickle write. -/
def writeIndexFile (s : VSState) (d : Disk) : Disk :=
  match s.vectorstore with
  | none => d
  | some f => { d with faissFile := .valid f.index }

/-- Second half of `save_index`: write the metadata pickle artifact. -/
def writePklFile (s : VSState) (d : Disk) : Disk :=
  match s.vectorstore with
  | none => d
  | some f => { d with pklFile := .valid ⟨s.documents, f.docstore, f.indexToDocstoreId⟩ }

/-- `save_index`: index file first, then the pickle, written in place
(no temporary file, no rename). -/
def saveIndex (s : VSState) (d : Disk) : Disk :=
  writePklFile s (writeIndexFile s d)

/-- `load_index`: check that both artifacts exist, then read both; any read
or deserialization error is caught and mapped to the same `false` as the
missing-artifact case, leaving the in-memory state unchanged. -/
def loadIndex (s : VSState) (d : Disk) : VSState × Bool :=
  if d.faissFile.existsOnDisk && d.pklFile.existsOnDisk then
    match readFile d.faissFile, readFile d.pklFile with
    | some idx, some pkl =>
      (⟨some ⟨idx, pkl.docstore, pkl.indexToDocstoreId⟩, pkl.documents⟩, true)
    | _, _ => (s, false)
  else
    (s, false)

/-- `get_vectorstore`: lazy-init guard; try `load_index`, else create a new
empty store (which embeds the dummy document and can therefore fail). -/
def getVectorstore (s : VSState) (emb : Embedder) (d : Disk) :
    Except String (VSState × FAISS) :=
  match s.vectorstore with
  | some f => .ok (s, f)
  | none =>
    match loadIndex s d with
    | (s1, true) =>
      match s1.vectorstore with
      | some f => .ok (s1, f)
      | none => .error "load_index reported success without a vectorstore"
    | (s1, false) =>
      match createNewVectorstore emb with
      | .error e => .error e
      | .ok f => .ok ({ s1 with vectorstore := some f }, f)

/-- `FAISSVectorStore.add_documents`: no-op on empty input; otherwise get
the handle, add to the inner store (embedding failure propagates with no
mutation), extend the document list, persist, and return the count. -/
def VSState.addDocuments (s : VSState) (emb : Embedder) (d : Disk)
    (docs : List Document) : (VSState × Disk) × Except String Nat :=
  if docs.isEmpty then ((s, d), .ok 0)
  else
    match getVectorstore s emb d with
    | .error e => ((s, d), .error e)
    | .ok (s1, f) =>
      match f.addDocuments emb docs with
      | .error e => ((s1, d), .error e)
      | .ok fNew =>
        let s2 : VSState := ⟨some fNew, s1.documents ++ docs⟩
        ((s2, saveIndex s2 d), .ok docs.length)

/-- `FAISSVectorStore.similarity_search`: lazy-init, then inner search. -/
def VSState.similaritySearch (s : VSState) (emb : Embedder) (d : Disk)
    (q : String) (k : Nat) : VSState × Except String (List (Document × Rat)) :=
  match getVectorstore s emb d with
  | .error e => (s, .error e)
  | .ok (s1, f) =>
    match f.searchWithScore emb q k with
    | .error e => (s1, .error e)
    | .ok res => (s1, .ok res)

/-! ## Rate limiter (`_wait_for_rate_limit` in embedding.py / llm_setup.py) -/

/-- Per-provider rate-limiter state: the last recorded request time
(initialized to 0 at construction). -/
structure LimiterState where
  lastRequestTime : Rat
  deriving Repr, DecidableEq

/-- `_wait_for_rate_limit` at clock time `now`: if less than `minInterval`
elapsed since the last attempt, sleep the remaining delta; then record the
post-sleep clock as the new last request time. Returns the sleep duration
and the updated limiter state. -/
def waitForRateLimit (minInterval : Rat) (st : LimiterState) (now : Rat) :
    Rat × LimiterState :=
  let timeSinceLast := now - st.lastRequestTime
  if timeSinceLast < minInterval then
    (minInterval - timeSinceLast, ⟨now + (minInterval - timeSinceLast)⟩)
  else
    (0, ⟨now⟩)

/-- Run a sequence of calls through one shared limiter; `arrivals` is the
clock time at which each caller reaches the limiter. Returns, per call,
the pacing sleep incurred and the recorded attempt time. -/
def runCalls (minInterval : Rat) : LimiterState → List Rat → List (Rat × Rat)
  | _, [] => []
  | st, now :: rest =>
    let r := waitForRateLimit minInterval st now
    (r.1, r.2.lastRequestTime) :: runCalls minInterval r.2 rest

/-- The recorded attempt times of a call sequence. -/
def attemptTimes (minInterval : Rat) (st : LimiterState) (arrivals : List Rat) :
    List Rat :=
  (runCalls minInterval st arrivals).map Prod.snd

/-- Total pacing sleep incurred by a call sequence. -/
def totalPacingSleep (minInterval : Rat) (st : LimiterState)
    (arrivals : List Rat) : Rat :=
  ((runCalls minInterval st arrivals).map Prod.fst).sum

/-! ## Retry loops (`_exponential_backoff_retry`, `_retry_with_backoff`) -/

/-- Prefix test on character lists. -/
def listIsPrefix : List Char → List Char → Bool
  | [], _ => true
  | _ :: _, [] => false
  | c :: cs, d :: ds => c == d && listIsPrefix cs ds

/-- Substring occurrence on character lists. -/
def listContains (pat : List Char) : List Char → Bool
  | [] => pat.isEmpty
  | c :: cs => listIsPrefix pat (c :: cs) || listContains pat cs

/-- Substring test (`pat in s` in Python). -/
def containsSubstring (s pat : String) : Bool :=
  listContains pat.data s.data

/-- `str.lower()` (character-wise lowering; the messages inspected are
ASCII). -/
def lowerString (s : String) : String :=
  String.mk (s.data.map Char.toLower)

/-- The LLM rate-limit detector: lowercase the message and look for
"429", "rate limit" or "capacity exceeded". -/
def isRateLimitMsg (e : String) : Bool :=
  let l := lowerString e
  containsSubstring l "429" || containsSubstring l "rate limit" ||
    containsSubstring l "capacity exceeded"

/-- The embedding rate-limit detector: only "429" and "rate limit". -/
def isEmbeddingRateLimitMsg (e : String) : Bool :=
  let l := lowerString e
  containsSubstring l "429" || containsSubstring l "rate limit"

/-- `_get_fallback_response`. -/
def fallbackResponse : String :=
  "I apologize, but I\x27m currently experiencing high demand and cannot process your request. Please try again in a few moments. The system has successfully retrieved relevant documents from your knowledge base, but the AI response generation is temporarily unavailable."

/-- The loop body of `MistralLLMSetup._exponential_backoff_retry`. The call
is indexed by its attempt number; `remaining = maxRetries - attempt` makes
the `attempt < max_retries` test structural. A rate-limit failure with
attempts remaining retries; exhausted retries return the fallback as a
normal value; any other error is re-raised at once. -/
def backoffLoop (call : Nat → Except String String)
    (attempt remaining : Nat) : Except String String :=
  match call attempt with
  | .ok r => .ok r
  | .error e =>
    if isRateLimitMsg e then
      match remaining with
      | 0 => .ok fallbackResponse
      | r + 1 => backoffLoop call (attempt + 1) r
    else .error e

/-- `_exponential_backoff_retry func max_retries`: run the loop from
attempt 0 with `max_retries` retries remaining. -/
def exponentialBackoffRetry (call : Nat → Except String String)
    (maxRetries : Nat) : Except String String :=
  backoffLoop call 0 maxRetries

/-- The loop body of `MistralEmbedding._retry_with_backoff`: same shape,
but exhausted retries re-raise instead of returning a fallback, and the
rate-limit detector lacks "capacity exceeded". -/
def embeddingRetryLoop {α : Type} (call : Nat → Except String α)
    (attempt remaining : Nat) : Except String α :=
  match call attempt with
  | .ok r => .ok r
  | .error e =>
    if isEmbeddingRateLimitMsg e then
      match remaining with
      | 0 => .error e
      | r + 1 => embeddingRetryLoop call (attempt + 1) r
    else .error e

/-- `_retry_with_backoff func max_retries`. -/
def retryWithBackoff {α : Type} (call : Nat → Except String α)
    (maxRetries : Nat) : Except String α :=
  embeddingRetryLoop call 0 maxRetries

/-- `generate_rag_answer`: run the API call (prompt construction is folded
into `makeApiCall`) through the retry helper; the surrounding
`try/except` turns ANY escaping error into the fallback response. -/
def generateRagAnswer (makeApiCall : Nat → Except String String)
    (maxRetries : Nat) : String :=
  match exponentialBackoffRetry makeApiCall maxRetries with
  | .ok r => r
  | .error _ => fallbackResponse

/-! ## Citations and the /ask route (`routes.py`) -/

/-- The `Citation` response model. -/
structure Citation where
  url : Option String
  title : Option String
  relevanceScore : Rat
  sourceType : Option String
  deriving Repr, DecidableEq

/-- The source key the citation loop deduplicates on:
`doc.metadata.get("source", "")`. -/
def sourceKey (dc : Document) : String := dc.metadata.source.getD ""

/-- The URL test of the citation loop: the source string starts with
an http or https scheme. -/
def isUrlSource (source : String) : Bool :=
  listIsPrefix "http://".data source.data ||
    listIsPrefix "https://".data source.data

/-- Build one citation from a retrieved (document, score) pair: relevance
is `1 - score`, URL sources keep the source as url, others are labelled
as uploaded files. -/
def mkCitation (dc : Document) (score : Rat) : Citation :=
  let source := sourceKey dc
  let title := dc.metadata.title.getD "No title"
  if isUrlSource source then
    ⟨some source, some title, 1 - score, some "url"⟩
  else
    ⟨some ("Uploaded file: " ++ source), some title, 1 - score, some "document"⟩

/-- The citation loop of `ask_question`: walk the retrieved pairs in
order, keeping a `seen_sources` set; a pair with a nonempty, unseen source
contributes one citation and marks the source seen. -/
def citeLoop : List (Document × Rat) → List String → List Citation
  | [], _ => []
  | (dc, score) :: rest, seen =>
    let source := sourceKey dc
    if source ≠ "" ∧ source ∉ seen then
      mkCitation dc score :: citeLoop rest (source :: seen)
    else
      citeLoop rest seen

/-- Citations as built by `ask_question`: the loop output truncated to 5. -/
def buildCitations (results : List (Document × Rat)) : List Citation :=
  (citeLoop results []).take 5

/-- The same list described the way the spec words it: first deduplicate
the retrieved pairs by source (first occurrence wins, empty sources are
skipped), then build citations, then truncate to 5. -/
def dedupFirstBySource : List (Document × Rat) → List String →
    List (Document × Rat)
  | [], _ => []
  | (dc, score) :: rest, seen =>
    if sourceKey dc ≠ "" ∧ sourceKey dc ∉ seen then
      (dc, score) :: dedupFirstBySource rest (sourceKey dc :: seen)
    else
      dedupFirstBySource rest seen

/-- `str.strip()`: drop whitespace from both ends. -/
def stripString (s : String) : String :=
  String.mk
    (((s.data.dropWhile Char.isWhitespace).reverse.dropWhile
      Char.isWhitespace).reverse)

/-- Errors surfaced by the /ask route as HTTP error responses. -/
inductive AskError where
  | emptyQuery
  | emptyKnowledgeBase
  | internal (msg : String)
  deriving Repr, DecidableEq

/-- The `AskResponse` model. -/
structure AskResponse where
  answer : String
  citations : List Citation
  query : String
  deriving Repr, DecidableEq

/-- The canned answer when retrieval returns nothing for a nonempty store. -/
def noRelevantDocsAnswer : String :=
  "I couldn\x27t find any relevant documents to answer your question."

/-- `ask_question`: strip the query; reject an empty query; reject an
empty knowledge base by consulting `get_document_count` only; otherwise
search, answer and build citations. -/
def askQuestion (s : VSState) (emb : Embedder)
    (makeApiCall : Nat → Except String String) (d : Disk) (query : String)
    (k maxRetries : Nat) : VSState × Except AskError AskResponse :=
  let q := stripString query
  if q = "" then (s, .error .emptyQuery)
  else if getDocumentCount s = 0 then (s, .error .emptyKnowledgeBase)
  else
    match s.similaritySearch emb d q k with
    | (s1, .error e) => (s1, .error (.internal e))
    | (s1, .ok results) =>
      if results.isEmpty then (s1, .ok ⟨noRelevantDocsAnswer, [], q⟩)
      else (s1, .ok ⟨generateRagAnswer makeApiCall maxRetries,
        buildCitations results, q⟩)

/-! ## The clear operation -/

/-- The `ClearResponse` model (`models.py`). -/
structure ClearResult where
  success : Bool
  documentsCleared : Nat
  filesDeleted : List String
  deriving Repr, DecidableEq

/-- Modelled from the spec: the clear operation itself (the `/clear` route
handler and its store-level implementation) is not under `src/` — only its
request/response models (`models.py`) and a demo caller reference it. Per
the spec: refuses with no mutation unless `confirm` is true; on
confirmation deletes both persisted artifacts if present, resets the
in-memory state to unloaded/empty, and reports the number of documents
cleared. -/
def clear (s : VSState) (d : Disk) (confirm : Bool) :
    (VSState × Disk) × ClearResult :=
  if confirm then
    let deleted :=
      (if d.faissFile.existsOnDisk then ["faiss_index.faiss"] else []) ++
      (if d.pklFile.existsOnDisk then ["faiss_index.pkl"] else [])
    ((freshStore, ⟨.absent, .absent⟩), ⟨true, s.documents.length, deleted⟩)
  else
    ((s, d), ⟨false, 0, []⟩)

/-! ## Derived count observations used by the persistence claims -/

/-- Vector count recorded in the on-disk index artifact, when readable. -/
def diskIndexCount (d : Disk) : Option Nat :=
  match d.faissFile with
  | .valid idx => some idx.length
  | _ => none

/-- Entry count (position-to-id bindings) recorded in the on-disk metadata
artifact, when readable. -/
def diskEntryCount (d : Disk) : Option Nat :=
  match d.pklFile with
  | .valid pkl => some pkl.indexToDocstoreId.length
  | _ => none

/-- Well-formedness of the in-memory FAISS store: one position-to-id
binding and one docstore entry per indexed vector. -/
def FAISS.WF (f : FAISS) : Prop :=
  f.index.length = f.indexToDocstoreId.length ∧
  f.docstore.length = f.indexToDocstoreId.length

/-! ## Concrete fixtures used to instantiate the theorems -/

/-- A sample chunk with an upload-style source. -/
def sampleDoc : Document := ⟨"The sky is blue", ⟨some "doc1", some "Sky", none⟩⟩

/-- A second sample chunk sharing the source of `sampleDoc`. -/
def sampleDoc2 : Document :=
  ⟨"More about the sky", ⟨some "doc1", some "Sky again", none⟩⟩

/-- An embedding backend that always succeeds with unit vectors. -/
def sampleEmbedder : Embedder :=
  ⟨fun ts => .ok (ts.map (fun _ => [1])), fun _ => .ok [1]⟩

/-- An embedding backend whose document embedding always fails with a
non-rate-limit message. -/
def failingEmbedder : Embedder :=
  ⟨fun _ => .error "invalid api key", fun _ => .error "invalid api key"⟩

/-- A store already holding one document and its vector. -/
def oneDocStore : VSState := ⟨some ⟨[[1]], [("0", sampleDoc)], ["0"]⟩, [sampleDoc]⟩

/-- A disk holding a previously persisted empty index (both artifacts
valid, zero vectors, zero entries). -/
def emptyPersistedDisk : Disk := ⟨.valid [], .valid ⟨[], [], []⟩⟩

/-- A disk with both artifacts absent. -/
def absentDisk : Disk := ⟨.absent, .absent⟩

/-- A disk whose index artifact is valid but whose pickle is unreadable. -/
def corruptPklDisk : Disk := ⟨.valid [[1]], .corrupt⟩

/-- A disk holding a previously persisted one-document index. -/
def oneDocDisk : Disk :=
  ⟨.valid [[1]], .valid ⟨[sampleDoc], [("0", sampleDoc)], ["0"]⟩⟩

/-! ## Helper lemmas -/

/-- If every attempt fails with a rate-limit message, the LLM retry loop
ends in the fallback response, from any attempt index. -/
theorem backoffLoop_all_rate_limited (call : Nat → Except String String)
    (h : ∀ n, ∃ e, call n = .error e ∧ isRateLimitMsg e = true) :
    ∀ remaining attempt, backoffLoop call attempt remaining = .ok fallbackResponse := by
  intro remaining
  induction remaining with
  | zero =>
    intro attempt
    obtain ⟨e, he, hr⟩ := h attempt
    simp [backoffLoop, he, hr]
  | succ r ih =>
    intro attempt
    obtain ⟨e, he, hr⟩ := h attempt
    simp [backoffLoop, he, hr, ih]

/-- If every attempt fails with one fixed message, the embedding retry
loop propagates that error (it has no fallback path). -/
theorem embeddingRetryLoop_const_error {α : Type} (call : Nat → Except String α)
    (efix : String) (h : ∀ n, call n = .error efix) :
    ∀ remaining attempt, embeddingRetryLoop call attempt remaining = .error efix := by
  intro remaining
  induction remaining with
  | zero =>
    intro attempt
    simp [embeddingRetryLoop, h attempt]
  | succ r ih =>
    intro attempt
    simp [embeddingRetryLoop, h attempt, ih]

/-- A non-rate-limit failure exits the LLM retry loop at once with the
error, whatever the retry budget. -/
theorem backoffLoop_non_rate_limit (call : Nat → Except String String)
    (attempt remaining : Nat) (e : String) (h : call attempt = .error e)
    (hnr : isRateLimitMsg e = false) :
    backoffLoop call attempt remaining = .error e := by
  cases remaining <;> simp [backoffLoop, h, hnr]

/-- One fresh docstore id is generated per added document. -/
theorem freshIds_length (f : FAISS) (n : Nat) : (freshIds f n).length = n := by
  simp [freshIds]

/-- Each pass through the limiter advances the recorded last-request time
by at least the minimum interval, whatever the arrival time. -/
theorem waitForRateLimit_advance (minI : Rat) (st : LimiterState) (now : Rat) :
    st.lastRequestTime + minI ≤ ((waitForRateLimit minI st now).2).lastRequestTime := by
  simp only [waitForRateLimit]
  split
  · simp only []
    linarith
  · rename_i h
    rw [not_lt] at h
    simp only []
    linarith

/-- Unfolding one call of the limiter run. -/
theorem attemptTimes_cons (minI : Rat) (st : LimiterState) (now : Rat)
    (rest : List Rat) :
    attemptTimes minI st (now :: rest) =
      ((waitForRateLimit minI st now).2).lastRequestTime ::
        attemptTimes minI ((waitForRateLimit minI st now).2) rest := by
  simp [attemptTimes, runCalls]

/-- One attempt time is recorded per call. -/
theorem attemptTimes_length (minI : Rat) :
    ∀ (arrivals : List Rat) (st : LimiterState),
      (attemptTimes minI st arrivals).length = arrivals.length := by
  intro arrivals
  induction arrivals with
  | nil => intro st; rfl
  | cons a t ih =>
    intro st
    rw [attemptTimes_cons]
    simp [ih]

/-- The first attempt of a run happens at least one interval after the
limiter state it starts from. -/
theorem attemptTimes_head_ge (minI : Rat) (st : LimiterState)
    (arrivals : List Rat) (x : Rat)
    (hx : (attemptTimes minI st arrivals).head? = some x) :
    st.lastRequestTime + minI ≤ x := by
  cases arrivals with
  | nil => simp [attemptTimes, runCalls] at hx
  | cons now rest =>
    rw [attemptTimes_cons] at hx
    simp only [List.head?_cons, Option.some.injEq] at hx
    rw [← hx]
    exact waitForRateLimit_advance minI st now

/-- Consecutive recorded attempt times are at least one interval apart. -/
theorem attemptTimes_chain (minI : Rat) :
    ∀ (arrivals : List Rat) (st : LimiterState),
      List.Chain' (fun a b => a + minI ≤ b) (attemptTimes minI st arrivals) := by
  intro arrivals
  induction arrivals with
  | nil => intro st; simp [attemptTimes, runCalls]
  | cons now rest ih =>
    intro st
    rw [attemptTimes_cons, List.chain'_cons']
    refine ⟨?_, ih _⟩
    intro y hy
    exact attemptTimes_head_ge minI _ rest y (Option.mem_def.mp hy)

/-- A list whose consecutive elements are at least `c` apart spans at
least `(length - 1) * c` from head to last. -/
theorem chain_le_span (c : Rat) :
    ∀ (l : List Rat), List.Chain' (fun a b => a + c ≤ b) l →
      ∀ x y, l.head? = some x → l.getLast? = some y →
        x + ((l.length - 1 : ℕ) : ℚ) * c ≤ y := by
  intro l
  induction l with
  | nil => intro _ x y hx _; simp at hx
  | cons a t ih =>
    intro hch x y hx hy
    cases t with
    | nil =>
      simp only [List.head?_cons, Option.some.injEq] at hx
      simp only [List.getLast?_singleton, Option.some.injEq] at hy
      rw [← hx, ← hy]
      simp
    | cons b t2 =>
      rw [List.chain'_cons] at hch
      obtain ⟨hab, hch2⟩ := hch
      have hy2 : (b :: t2).getLast? = some y := by
        rw [List.getLast?_cons_cons] at hy
        exact hy
      have hspan := ih hch2 b y rfl hy2
      simp only [List.head?_cons, Option.some.injEq] at hx
      rw [← hx]
      simp only [List.length_cons, Nat.add_sub_cancel] at hspan ⊢
      push_cast at hspan ⊢
      linarith

/-! ## Claims -/

/-- C6: when the completion backend signals rate-limiting (HTTP 429) on
every attempt up to retry exhaustion, the completion provider does not
propagate an error: the retry helper returns normally and the answer is
the fixed user-facing fallback string. -/
theorem c6_rate_limit_exhaustion_yields_fallback
    (call : Nat → Except String String) (maxRetries : Nat)
    (h : ∀ n, ∃ e, call n = .error e ∧ isRateLimitMsg e = true) :
    exponentialBackoffRetry call maxRetries = .ok fallbackResponse ∧
    generateRagAnswer call maxRetries = fallbackResponse := by
  have hmain := backoffLoop_all_rate_limited call h maxRetries 0
  constructor
  · simpa [exponentialBackoffRetry] using hmain
  · simp [generateRagAnswer, exponentialBackoffRetry, hmain]

/-- Witness for C6 at a concrete always-429 backend. -/
theorem c6_witness :
    exponentialBackoffRetry (fun _ => .error "Requests rate limit exceeded (429)") 3 =
      .ok fallbackResponse ∧
    generateRagAnswer (fun _ => .error "Requests rate limit exceeded (429)") 3 =
      fallbackResponse :=
  c6_rate_limit_exhaustion_yields_fallback _ 3
    (fun _ => ⟨"Requests rate limit exceeded (429)", rfl, by decide⟩)

/-- C5 counterexample: a non-rate-limit error from the underlying call
path does abort the retry loop immediately, but it does NOT propagate to
the caller of `generate_rag_answer`: the catch-all there swallows it and
returns the fallback string instead. -/
theorem c5_counterexample :
    exponentialBackoffRetry (fun _ => .error "invalid api key") 3 =
      .error "invalid api key" ∧
    isRateLimitMsg "invalid api key" = false ∧
    generateRagAnswer (fun _ => .error "invalid api key") 3 = fallbackResponse :=
  ⟨rfl, by decide, rfl⟩

/-- C5 amended: a non-rate-limit error propagates immediately out of
`_exponential_backoff_retry` with no retry attempt (the outcome does not
depend on any attempt after the first), but `generate_rag_answer` catches
it and returns the fixed fallback string to its caller. -/
theorem c5_amended_non_rate_limit_immediate
    (call call2 : Nat → Except String String) (maxRetries : Nat) (e : String)
    (h0 : call 0 = .error e) (hnr : isRateLimitMsg e = false)
    (h2 : call2 0 = .error e) :
    exponentialBackoffRetry call maxRetries = .error e ∧
    generateRagAnswer call maxRetries = fallbackResponse ∧
    exponentialBackoffRetry call2 maxRetries = .error e := by
  have k1 : exponentialBackoffRetry call maxRetries = .error e :=
    backoffLoop_non_rate_limit call 0 maxRetries e h0 hnr
  refine ⟨k1, ?_, backoffLoop_non_rate_limit call2 0 maxRetries e h2 hnr⟩
  simp [generateRagAnswer, k1]

/-- Witness for C5 amended: a timeout-style error, with a second call
whose later attempts would succeed, showing no retry is made. -/
theorem c5_witness :
    exponentialBackoffRetry (fun _ => .error "connection timeout") 2 =
      .error "connection timeout" ∧
    generateRagAnswer (fun _ => .error "connection timeout") 2 = fallbackResponse ∧
    exponentialBackoffRetry
      (fun n => if n = 0 then .error "connection timeout" else .ok "late") 2 =
      .error "connection timeout" :=
  c5_amended_non_rate_limit_immediate _ _ 2 "connection timeout" rfl (by decide) rfl

/-- C8 (spec-modelled): clearing with `confirm = false` refuses the
operation and performs no mutation: the returned state and disk are the
originals, so `document_count()` and on-disk artifact existence are
unchanged. -/
theorem c8_clear_unconfirmed_no_mutation (s : VSState) (d : Disk) :
    clear s d false = ((s, d), ⟨false, 0, []⟩) ∧
    getDocumentCount (clear s d false).1.1 = getDocumentCount s ∧
    indexExistsOnDisk (clear s d false).1.2 = indexExistsOnDisk d :=
  ⟨rfl, rfl, rfl⟩

/-- C10: on a freshly constructed store, /ask fails with the
empty-knowledge-base error for EVERY disk state, including one where both
index artifacts exist, because the document-count guard reads only the
in-memory document list and never triggers a load from disk. -/
theorem c10_fresh_store_ask_empty_kb (emb : Embedder)
    (makeApiCall : Nat → Except String String) (d : Disk) (query : String)
    (k maxRetries : Nat) (h : stripString query ≠ "") :
    askQuestion freshStore emb makeApiCall d query k maxRetries =
      (freshStore, .error .emptyKnowledgeBase) ∧
    getDocumentCount freshStore = 0 := by
  refine ⟨?_, rfl⟩
  simp [askQuestion, h, getDocumentCount, freshStore]

/-- Witness for C10 at a disk that does hold both persisted artifacts. -/
theorem c10_witness :
    askQuestion freshStore sampleEmbedder (fun _ => .ok "answer") oneDocDisk
      "What color is the sky?" 5 3 =
      (freshStore, .error .emptyKnowledgeBase) ∧
    getDocumentCount freshStore = 0 :=
  c10_fresh_store_ask_empty_kb sampleEmbedder _ oneDocDisk
    "What color is the sky?" 5 3 (by decide)

/-- C4: similarity_search on a store holding zero documents returns an
empty sequence and succeeds, both for an already-initialized empty store
and for a store whose first-ever access is this search (no artifacts on
disk), given that the embedding calls involved succeed. -/
theorem c4_empty_store_search_empty (emb : Embedder) (d dEmpty : Disk)
    (q : String) (k : Nat) (qv : Vec) (w : List Vec) (s : VSState) (f : FAISS)
    (hq : emb.embedQuery q = .ok qv) (hs : s.vectorstore = some f)
    (hf : f.index = [])
    (hda : dEmpty.faissFile = FileState.absent)
    (hdp : dEmpty.pklFile = FileState.absent)
    (hinit : emb.embedDocuments [initDocument.pageContent] = .ok w) :
    s.similaritySearch emb d q k = (s, .ok []) ∧
    freshStore.similaritySearch emb dEmpty q k =
      (⟨some ⟨[], [], []⟩, []⟩, .ok []) := by
  constructor
  · simp [VSState.similaritySearch, getVectorstore, hs, FAISS.searchWithScore,
      hq, hf, sortByDist]
  · simp [VSState.similaritySearch, getVectorstore, freshStore, loadIndex, hda,
      hdp, FileState.existsOnDisk, createNewVectorstore, hinit,
      FAISS.searchWithScore, hq, sortByDist]

/-- Witness for C4: a concrete empty loaded store and a concrete fresh
store with an empty disk. -/
theorem c4_witness :
    VSState.similaritySearch ⟨some ⟨[], [], []⟩, []⟩ sampleEmbedder oneDocDisk
      "sky color" 5 = (⟨some ⟨[], [], []⟩, []⟩, .ok []) ∧
    VSState.similaritySearch freshStore sampleEmbedder absentDisk "sky color" 5 =
      (⟨some ⟨[], [], []⟩, []⟩, .ok []) :=
  c4_empty_store_search_empty sampleEmbedder oneDocDisk absentDisk "sky color" 5
    [1] [[1]] ⟨some ⟨[], [], []⟩, []⟩ ⟨[], [], []⟩ rfl rfl rfl rfl rfl rfl

/-- C3: add_documents on a nonempty batch is atomic from the caller's
perspective: with a succeeding embedder all chunks are added (index,
docstore, id-mapping and document list each grow by the batch size) and
the batch size is returned; with a failing embedder the error propagates
and the prior state and disk are returned unchanged; and the embedding
retry helper propagates persistent failure rather than substituting a
fallback. -/
theorem c3_add_documents_atomic (s : VSState) (d : Disk) (docs : List Document)
    (f : FAISS) (embA embF : Embedder) (vecs : List Vec) (e : String)
    (callF : Nat → Except String (List Vec)) (efix : String) (m : Nat)
    (hne : docs ≠ []) (hvs : s.vectorstore = some f)
    (hok : embA.embedDocuments (docs.map (fun dc => dc.pageContent)) = .ok vecs)
    (hlen : vecs.length = docs.length)
    (hfail : embF.embedDocuments (docs.map (fun dc => dc.pageContent)) = .error e)
    (hcf : ∀ n, callF n = .error efix) :
    VSState.addDocuments s embA d docs =
      ((⟨some ⟨f.index ++ vecs, f.docstore ++ (freshIds f docs.length).zip docs,
          f.indexToDocstoreId ++ freshIds f docs.length⟩, s.documents ++ docs⟩,
        saveIndex ⟨some ⟨f.index ++ vecs,
          f.docstore ++ (freshIds f docs.length).zip docs,
          f.indexToDocstoreId ++ freshIds f docs.length⟩,
          s.documents ++ docs⟩ d),
       .ok docs.length) ∧
    (s.documents ++ docs).length = s.documents.length + docs.length ∧
    (f.index ++ vecs).length = f.index.length + docs.length ∧
    (f.indexToDocstoreId ++ freshIds f docs.length).length =
      f.indexToDocstoreId.length + docs.length ∧
    (f.docstore ++ (freshIds f docs.length).zip docs).length =
      f.docstore.length + docs.length ∧
    VSState.addDocuments s embF d docs = ((s, d), .error e) ∧
    retryWithBackoff callF m = .error efix := by
  have hie : docs.isEmpty = false := by
    cases docs with
    | nil => exact absurd rfl hne
    | cons a l => rfl
  refine ⟨?_, ?_, ?_, ?_, ?_, ?_, ?_⟩
  · simp [VSState.addDocuments, hie, getVectorstore, hvs, FAISS.addDocuments, hok]
  · simp
  · simp [hlen]
  · simp [freshIds_length]
  · simp [freshIds_length, hlen]
  · simp [VSState.addDocuments, hie, getVectorstore, hvs, FAISS.addDocuments, hfail]
  · exact embeddingRetryLoop_const_error callF efix hcf m 0

/-- Witness for C3: adding one chunk to a one-document store with a
succeeding embedder, a failing embedder, and a persistently failing
retry call. -/
theorem c3_witness :
    VSState.addDocuments oneDocStore sampleEmbedder emptyPersistedDisk
      [sampleDoc2] =
      ((⟨some ⟨[[1], [1]], [("0", sampleDoc), ("1", sampleDoc2)], ["0", "1"]⟩,
          [sampleDoc, sampleDoc2]⟩,
        ⟨.valid [[1], [1]],
          .valid ⟨[sampleDoc, sampleDoc2],
            [("0", sampleDoc), ("1", sampleDoc2)], ["0", "1"]⟩⟩),
       .ok 1) ∧
    VSState.addDocuments oneDocStore failingEmbedder emptyPersistedDisk
      [sampleDoc2] =
      ((oneDocStore, emptyPersistedDisk), .error "invalid api key") ∧
    retryWithBackoff
      (fun _ => (.error "Embedding 429 too many requests" :
        Except String (List Vec))) 2 =
      .error "Embedding 429 too many requests" := by
  have h := c3_add_documents_atomic oneDocStore emptyPersistedDisk [sampleDoc2]
    ⟨[[1]], [("0", sampleDoc)], ["0"]⟩ sampleEmbedder failingEmbedder [[1]]
    "invalid api key" (fun _ => .error "Embedding 429 too many requests")
    "Embedding 429 too many requests" 2 (by simp) rfl rfl rfl rfl (fun _ => rfl)
  exact ⟨h.1, h.2.2.2.2.2.1, h.2.2.2.2.2.2⟩

/-- C7 counterexample: a disk whose pickle artifact exists but fails to
deserialize makes load_index return the very same result as a disk with
no artifacts at all — corruption is not surfaced distinctly, and the
claimed "returns false iff either artifact is missing" fails because
here both artifacts are present. -/
theorem c7_counterexample :
    loadIndex freshStore corruptPklDisk = (freshStore, false) ∧
    indexExistsOnDisk corruptPklDisk = true ∧
    loadIndex freshStore absentDisk = (freshStore, false) :=
  ⟨rfl, rfl, rfl⟩

/-- C7 amended: load_index returns true with the index populated iff both
artifacts exist and deserialize successfully; it returns false with the
store unchanged both when an artifact is missing and when an existing
artifact fails to read or deserialize — the corruption case is caught and
reported with the same false as the absent case, not distinctly. -/
theorem c7_amended_load_conflates_corruption (s : VSState) (dv dm dc : Disk)
    (idx idx2 : List Vec) (pkl : PklData)
    (hv1 : dv.faissFile = .valid idx) (hv2 : dv.pklFile = .valid pkl)
    (hm : dm.faissFile = .absent)
    (hc1 : dc.faissFile = .valid idx2) (hc2 : dc.pklFile = .corrupt) :
    loadIndex s dv =
      (⟨some ⟨idx, pkl.docstore, pkl.indexToDocstoreId⟩, pkl.documents⟩, true) ∧
    loadIndex s dm = (s, false) ∧
    loadIndex s dc = (s, false) := by
  refine ⟨?_, ?_, ?_⟩ <;>
    simp [loadIndex, hv1, hv2, hm, hc1, hc2, FileState.existsOnDisk, readFile]

/-- Witness for C7 at concrete valid, absent and corrupt disks. -/
theorem c7_witness :
    loadIndex freshStore oneDocDisk =
      (⟨some ⟨[[1]], [("0", sampleDoc)], ["0"]⟩, [sampleDoc]⟩, true) ∧
    loadIndex freshStore absentDisk = (freshStore, false) ∧
    loadIndex freshStore corruptPklDisk = (freshStore, false) :=
  c7_amended_load_conflates_corruption freshStore oneDocDisk absentDisk
    corruptPklDisk [[1]] [[1]] ⟨[sampleDoc], [("0", sampleDoc)], ["0"]⟩
    rfl rfl rfl rfl rfl

/-- C1 counterexample: save_index writes the index artifact first and the
metadata pickle second, in place, with no temporary file and rename; the
state reached by a crash between the two writes (here: one vector just
persisted over a previously persisted empty index) has an index artifact
recording 1 vector next to a metadata artifact recording 0 entries. -/
theorem c1_counterexample :
    saveIndex oneDocStore emptyPersistedDisk =
      writePklFile oneDocStore (writeIndexFile oneDocStore emptyPersistedDisk) ∧
    diskIndexCount (writeIndexFile oneDocStore emptyPersistedDisk) = some 1 ∧
    diskEntryCount (writeIndexFile oneDocStore emptyPersistedDisk) = some 0 :=
  ⟨rfl, rfl, rfl⟩

/-- C1 amended: a COMPLETED save_index from a well-formed store writes
both artifacts so that the on-disk vector count equals the metadata entry
count, and add_documents preserves that well-formedness; but the
crash-mid-write guarantee does not hold, since the two artifacts are
written one after the other in place. -/
theorem c1_amended_completed_save_consistent (s : VSState) (d : Disk)
    (f : FAISS) (embA : Embedder) (docs : List Document) (vecs : List Vec)
    (hvs : s.vectorstore = some f) (hwf : f.WF)
    (hok : embA.embedDocuments (docs.map (fun dc => dc.pageContent)) = .ok vecs)
    (hlen : vecs.length = docs.length) :
    (saveIndex s d).faissFile = .valid f.index ∧
    (saveIndex s d).pklFile =
      .valid ⟨s.documents, f.docstore, f.indexToDocstoreId⟩ ∧
    diskIndexCount (saveIndex s d) = some f.index.length ∧
    diskEntryCount (saveIndex s d) = some f.index.length ∧
    diskIndexCount (saveIndex s d) = diskEntryCount (saveIndex s d) ∧
    f.addDocuments embA docs =
      .ok ⟨f.index ++ vecs, f.docstore ++ (freshIds f docs.length).zip docs,
        f.indexToDocstoreId ++ freshIds f docs.length⟩ ∧
    FAISS.WF ⟨f.index ++ vecs, f.docstore ++ (freshIds f docs.length).zip docs,
      f.indexToDocstoreId ++ freshIds f docs.length⟩ := by
  obtain ⟨hw1, hw2⟩ := hwf
  have h1 : (saveIndex s d).faissFile = .valid f.index := by
    simp [saveIndex, writeIndexFile, writePklFile, hvs]
  have h2 : (saveIndex s d).pklFile =
      .valid ⟨s.documents, f.docstore, f.indexToDocstoreId⟩ := by
    simp [saveIndex, writeIndexFile, writePklFile, hvs]
  refine ⟨h1, h2, ?_, ?_, ?_, ?_, ?_, ?_⟩
  · simp [diskIndexCount, h1]
  · simp [diskEntryCount, h2, hw1]
  · simp [diskIndexCount, diskEntryCount, h1, h2, hw1]
  · simp [FAISS.addDocuments, hok]
  · simp [FAISS.WF, freshIds_length, hlen, hw1]
  · simp [FAISS.WF, freshIds_length, hlen, hw2]

/-- C2 counterexample: two calls through a limiter with minimum interval
1 arriving at times 2 and 10 (initial last-request time 0) incur zero
aggregate pacing sleep, which is less than (N-1)*T = 1; so the claimed
lower bound on aggregate pacing delay fails for naturally spaced calls. -/
theorem c2_counterexample :
    totalPacingSleep 1 ⟨0⟩ [2, 10] = 0 ∧
    ¬ (((2 : ℚ) - 1) * 1 ≤ totalPacingSleep 1 ⟨0⟩ [2, 10]) := by
  have h : totalPacingSleep 1 ⟨0⟩ [2, 10] = 0 := by
    simp [totalPacingSleep, runCalls, waitForRateLimit]
    norm_num
  refine ⟨h, ?_⟩
  rw [h]
  norm_num

/-- C2 amended: the limiter sleeps the remaining delta whenever less than
the minimum interval elapsed since the last attempt; consecutive recorded
attempt times are at least one interval apart; hence the wall-clock span
from the first to the last of N attempts is at least (N-1) intervals —
the sleep supplies the shortfall when a caller arrives early, but the
aggregate sleep alone carries no such lower bound. -/
theorem c2_amended_spacing (minInterval : Rat) (st st2 : LimiterState)
    (arrivals : List Rat) (now x y : Rat)
    (hnow : now - st2.lastRequestTime < minInterval)
    (hx : (attemptTimes minInterval st arrivals).head? = some x)
    (hy : (attemptTimes minInterval st arrivals).getLast? = some y) :
    (waitForRateLimit minInterval st2 now).1 =
      minInterval - (now - st2.lastRequestTime) ∧
    List.Chain' (fun a b => a + minInterval ≤ b)
      (attemptTimes minInterval st arrivals) ∧
    x + ((arrivals.length - 1 : ℕ) : ℚ) * minInterval ≤ y := by
  refine ⟨?_, attemptTimes_chain minInterval arrivals st, ?_⟩
  · simp [waitForRateLimit, hnow]
  · have hspan := chain_le_span minInterval (attemptTimes minInterval st arrivals)
      (attemptTimes_chain minInterval arrivals st) x y hx hy
    rwa [attemptTimes_length] at hspan

/-- Witness for C2 amended: two back-to-back calls at time 0 through a
fresh limiter with interval 1; attempts are recorded at times 1 and 2. -/
theorem c2_witness :
    (waitForRateLimit 1 ⟨0⟩ 0).1 = 1 - (0 - 0) ∧
    List.Chain' (fun a b => a + 1 ≤ b) (attemptTimes 1 ⟨0⟩ [0, 0]) ∧
    (1 : ℚ) + ((([0, 0] : List Rat).length - 1 : ℕ) : ℚ) * 1 ≤ 2 :=
  c2_amended_spacing 1 ⟨0⟩ ⟨0⟩ [0, 0] 0 1 2 (by norm_num)
    (by norm_num [attemptTimes, runCalls, waitForRateLimit])
    (by norm_num [attemptTimes, runCalls, waitForRateLimit])

/-- Witness for C1 at a one-document store persisted onto an empty disk,
with a one-chunk extension. -/
theorem c1_witness :
    (saveIndex oneDocStore absentDisk).faissFile = .valid [[1]] ∧
    (saveIndex oneDocStore absentDisk).pklFile =
      .valid ⟨[sampleDoc], [("0", sampleDoc)], ["0"]⟩ ∧
    diskIndexCount (saveIndex oneDocStore absentDisk) = some 1 ∧
    diskEntryCount (saveIndex oneDocStore absentDisk) = some 1 ∧
    diskIndexCount (saveIndex oneDocStore absentDisk) =
      diskEntryCount (saveIndex oneDocStore absentDisk) ∧
    FAISS.addDocuments ⟨[[1]], [("0", sampleDoc)], ["0"]⟩ sampleEmbedder
      [sampleDoc2] =
      .ok ⟨[[1], [1]], [("0", sampleDoc), ("1", sampleDoc2)], ["0", "1"]⟩ ∧
    FAISS.WF ⟨[[1], [1]], [("0", sampleDoc), ("1", sampleDoc2)], ["0", "1"]⟩ :=
  c1_amended_completed_save_consistent oneDocStore absentDisk
    ⟨[[1]], [("0", sampleDoc)], ["0"]⟩ sampleEmbedder [sampleDoc2] [[1]]
    rfl ⟨rfl, rfl⟩ rfl rfl

/-- The citation loop is the spec-worded pipeline: deduplicate by source
keeping first occurrences, then build one citation per survivor. -/
theorem citeLoop_eq_dedup_map :
    ∀ (l : List (Document × Rat)) (seen : List String),
      citeLoop l seen =
        (dedupFirstBySource l seen).map (fun r => mkCitation r.1 r.2) := by
  intro l
  induction l with
  | nil => intro seen; rfl
  | cons p rest ih =>
    intro seen
    cases p with
    | mk dc score =>
      by_cases hcond : sourceKey dc ≠ "" ∧ sourceKey dc ∉ seen
      · simp [citeLoop, dedupFirstBySource, hcond, ih]
      · simp [citeLoop, dedupFirstBySource, hcond, ih]

/-- A pair surviving deduplication has a nonempty source not in the seen
set and comes from the input list. -/
theorem dedup_mem_facts :
    ∀ (l : List (Document × Rat)) (seen : List String)
      (p : Document × Rat), p ∈ dedupFirstBySource l seen →
      sourceKey p.1 ∉ seen ∧ sourceKey p.1 ≠ "" ∧ p ∈ l := by
  intro l
  induction l with
  | nil => intro seen p hp; simp [dedupFirstBySource] at hp
  | cons q rest ih =>
    intro seen p hp
    cases q with
    | mk dc score =>
      by_cases hcond : sourceKey dc ≠ "" ∧ sourceKey dc ∉ seen
      · simp only [dedupFirstBySource, if_pos hcond, List.mem_cons] at hp
        rcases hp with rfl | hp
        · exact ⟨hcond.2, hcond.1, List.mem_cons_self _ _⟩
        · obtain ⟨h1, h2, h3⟩ := ih _ p hp
          refine ⟨?_, h2, List.mem_cons_of_mem _ h3⟩
          intro hs
          exact h1 (List.mem_cons_of_mem _ hs)
      · simp only [dedupFirstBySource, if_neg hcond] at hp
        obtain ⟨h1, h2, h3⟩ := ih _ p hp
        exact ⟨h1, h2, List.mem_cons_of_mem _ h3⟩

/-- The deduplicated list carries pairwise distinct source keys: exactly
one citation per source. -/
theorem dedup_keys_nodup :
    ∀ (l : List (Document × Rat)) (seen : List String),
      ((dedupFirstBySource l seen).map (fun r => sourceKey r.1)).Nodup := by
  intro l
  induction l with
  | nil => intro seen; simp [dedupFirstBySource]
  | cons q rest ih =>
    intro seen
    cases q with
    | mk dc score =>
      by_cases hcond : sourceKey dc ≠ "" ∧ sourceKey dc ∉ seen
      · simp only [dedupFirstBySource, if_pos hcond, List.map_cons, List.nodup_cons]
        refine ⟨?_, ih _⟩
        intro hmem
        obtain ⟨r, hr, hkey⟩ := List.mem_map.mp hmem
        have := (dedup_mem_facts rest _ r hr).1
        rw [hkey] at this
        exact this (List.mem_cons_self _ _)
      · simp only [dedupFirstBySource, if_neg hcond]
        exact ih _

/-- With the input sorted by ascending distance, each deduplication
survivor carries the minimal distance among all input pairs sharing its
source. -/
theorem dedup_first_closest :
    ∀ (l : List (Document × Rat)) (seen : List String),
      List.Pairwise (fun a b : Document × Rat => a.2 ≤ b.2) l →
      ∀ p ∈ dedupFirstBySource l seen, ∀ q ∈ l,
        sourceKey q.1 = sourceKey p.1 → p.2 ≤ q.2 := by
  intro l
  induction l with
  | nil => intro seen _ p hp; simp [dedupFirstBySource] at hp
  | cons hd rest ih =>
    intro seen hsort p hp q hq hkey
    rw [List.pairwise_cons] at hsort
    obtain ⟨hhd, hsort2⟩ := hsort
    cases hd with
    | mk dc score =>
      by_cases hcond : sourceKey dc ≠ "" ∧ sourceKey dc ∉ seen
      · simp only [dedupFirstBySource, if_pos hcond, List.mem_cons] at hp
        rcases hp with rfl | hp
        · rcases List.mem_cons.mp hq with rfl | hq2
          · exact le_refl _
          · exact hhd q hq2
        · rcases List.mem_cons.mp hq with rfl | hq2
          · exfalso
            have hfacts := dedup_mem_facts rest _ p hp
            apply hfacts.1
            rw [← hkey]
            exact List.mem_cons_self _ _
          · exact ih _ hsort2 p hp q hq2 hkey
      · simp only [dedupFirstBySource, if_neg hcond] at hp
        rcases List.mem_cons.mp hq with rfl | hq2
        · exfalso
          have hfacts := dedup_mem_facts rest seen p hp
          rw [not_and_or] at hcond
          rcases hcond with hdc | hdc
          · rw [not_not] at hdc
            apply hfacts.2.1
            rw [← hkey]
            exact hdc
          · rw [not_not] at hdc
            apply hfacts.1
            rw [← hkey]
            exact hdc
        · exact ih seen hsort2 p hp q hq2 hkey

/-- Together with nodup keys: membership pins the count of same-source
survivors to exactly one. -/
theorem dedup_countP_one (l : List (Document × Rat)) (p : Document × Rat)
    (hp : p ∈ dedupFirstBySource l []) :
    (dedupFirstBySource l []).countP
      (fun r => sourceKey r.1 == sourceKey p.1) = 1 := by
  have hnd := dedup_keys_nodup l []
  have hmem : sourceKey p.1 ∈
      (dedupFirstBySource l []).map (fun r => sourceKey r.1) :=
    List.mem_map_of_mem _ hp
  have hcount := List.count_eq_one_of_mem hnd hmem
  simp only [List.count, List.countP_map] at hcount
  exact hcount

/-- C9: citations are the retrieved chunks deduplicated by source with
the first occurrence winning, truncated to at most 5 entries preserving
order; under ascending-distance input the surviving occurrence is the
closest one for its source; each citation scores 1 minus its chunk
distance and is classified as a url exactly when the source string has an
http or https scheme; and each source contributes exactly one entry. -/
theorem c9_citation_construction (results : List (Document × Rat))
    (p q : Document × Rat)
    (hsort : List.Pairwise (fun a b : Document × Rat => a.2 ≤ b.2) results)
    (hp : p ∈ dedupFirstBySource results [])
    (hq : q ∈ results)
    (hkey : sourceKey q.1 = sourceKey p.1) :
    buildCitations results =
      ((dedupFirstBySource results []).map
        (fun r => mkCitation r.1 r.2)).take 5 ∧
    (buildCitations results).length ≤ 5 ∧
    ((dedupFirstBySource results []).map (fun r => sourceKey r.1)).Nodup ∧
    (dedupFirstBySource results []).countP
      (fun r => sourceKey r.1 == sourceKey p.1) = 1 ∧
    p.2 ≤ q.2 ∧
    (mkCitation p.1 p.2).relevanceScore = 1 - p.2 ∧
    ((mkCitation p.1 p.2).sourceType = some "url" ↔
      isUrlSource (sourceKey p.1) = true) := by
  refine ⟨?_, ?_, dedup_keys_nodup results [], dedup_countP_one results p hp,
    dedup_first_closest results [] hsort p hp q hq hkey, ?_, ?_⟩
  · rw [buildCitations, citeLoop_eq_dedup_map]
  · rw [buildCitations]
    simp [List.length_take]
  · rw [mkCitation]
    split <;> rfl
  · rw [mkCitation]
    split
    · rename_i h
      simp [h]
    · rename_i h
      simp only [Bool.not_eq_true] at h
      simp [h]

/-- Witness for C9: two retrieved chunks sharing source "doc1" at
distances 0 and 1, in ascending order. -/
theorem c9_witness :
    buildCitations [(sampleDoc, 0), (sampleDoc2, 1)] =
      ((dedupFirstBySource [(sampleDoc, 0), (sampleDoc2, 1)] []).map
        (fun r => mkCitation r.1 r.2)).take 5 ∧
    (buildCitations [(sampleDoc, 0), (sampleDoc2, 1)]).length ≤ 5 ∧
    ((dedupFirstBySource [(sampleDoc, 0), (sampleDoc2, 1)] []).map
      (fun r => sourceKey r.1)).Nodup ∧
    (dedupFirstBySource [(sampleDoc, 0), (sampleDoc2, 1)] []).countP
      (fun r => sourceKey r.1 == sourceKey sampleDoc) = 1 ∧
    ((sampleDoc, (0 : Rat)).2 ≤ (sampleDoc2, (1 : Rat)).2) ∧
    (mkCitation sampleDoc 0).relevanceScore = 1 - 0 ∧
    ((mkCitation sampleDoc 0).sourceType = some "url" ↔
      isUrlSource (sourceKey sampleDoc) = true) :=
  c9_citation_construction [(sampleDoc, 0), (sampleDoc2, 1)]
    (sampleDoc, 0) (sampleDoc2, 1)
    (by norm_num [List.pairwise_cons])
    (List.mem_cons_self _ _)
    (by simp)
    rfl

end RAGBackend
